import Mathlib

/-!
Verification of the page-keeper-space digital library application.

The application is a CRUD front end over a hosted backend: an upload dialog
(`UploadBookDialog.tsx`) with a client-side 200MB quota check, a library page
with `fetchBooks` and `handleDeleteBook`, and a SQL migration declaring the
`books` table, row-level-security policies, the signup bootstrap trigger
`handle_new_user` and the aggregate `get_user_storage_used`.

The embedding below translates those pieces into pure Lean functions over
explicit state.  Network fallibility is modelled by Boolean outcome
parameters (one per fallible call), and the network requests a flow issues
are collected in a trace.
-/

/-- A file selected in the browser file input: name, size in bytes, MIME type. -/
structure FileObj where
  name : String
  size : Nat
  ftype : String
  deriving Repr, DecidableEq

/-- A row of `public.books` (migration lines 42-52).  Timestamps are modelled
as naturals (milliseconds), uuids as strings. -/
structure BookRow where
  id : String
  user_id : String
  title : String
  author : Option String
  file_path : String
  file_size : Nat
  file_type : Option String
  cover_url : Option String
  uploaded_at : Nat
  deriving Repr, DecidableEq

/-- An object row of `storage.objects`: owning bucket and path-like name. -/
structure StorageObject where
  bucket_id : String
  name : String
  deriving Repr, DecidableEq

/-- The backend state the book flows act on: the `books` table and the
storage objects. -/
structure DBState where
  books : List BookRow
  objects : List StorageObject
  deriving Repr, DecidableEq

/-- The React state of the upload dialog: title, author and selected file
(`useState` at UploadBookDialog.tsx lines 24-26; `file` starts as `null`). -/
structure DialogState where
  title : String
  author : String
  file : Option FileObj
  deriving Repr, DecidableEq

/-- `handleFileChange` (UploadBookDialog.tsx lines 29-40): if
`storageUsed + selectedFile.size > storageLimit` the selection is rejected
with a local toast and the state is unchanged; otherwise the file is
recorded. -/
def handleFileChange (storageUsed storageLimit : Nat) (s : DialogState)
    (selected : FileObj) : DialogState :=
  if storageUsed + selected.size > storageLimit then s
  else { s with file := some selected }

/-- The network requests the client issues against the hosted platform. -/
inductive NetCall where
  | getUser : NetCall
  | storageUpload (path : String) (size : Nat) : NetCall
  | dbInsertBook (row : BookRow) : NetCall
  | storageRemove (path : String) : NetCall
  | dbDeleteBook (bookId : String) : NetCall
  deriving Repr, DecidableEq

/-- The ways `handleUpload` can finish. -/
inductive UploadResult where
  | noFile : UploadResult
  | notLoggedIn : UploadResult
  | uploadFailed : UploadResult
  | insertFailed : UploadResult
  | success : UploadResult
  deriving Repr, DecidableEq

/-- `file.name.split(".").pop()` (UploadBookDialog.tsx line 58): the last
dot-separated component of the file name. -/
def fileExt (f : FileObj) : String :=
  (f.name.splitOn ".").getLastD ""

/-- The storage path built at UploadBookDialog.tsx line 59:
`${user.id}/${Date.now()}.${fileExt}`. -/
def uploadPath (uid : String) (now : Nat) (f : FileObj) : String :=
  uid ++ "/" ++ toString now ++ "." ++ fileExt f

/-- What an upload attempt produced: the issued network calls in order, the
reported result, and the resulting backend state. -/
structure UploadOutcome where
  calls : List NetCall
  result : UploadResult
  state : DBState
  deriving Repr, DecidableEq

/-- `handleUpload` (UploadBookDialog.tsx lines 42-93).  `user` is the result
of `supabase.auth.getUser()`; `now` is `Date.now()`; `freshId` the id the
database generates for the inserted row; `uploadOk`, `insertOk`, `removeOk`
are the outcomes of the storage upload, the metadata insert, and the
compensating remove.  The JS `author || null` sends `null` for the empty
string. -/
def handleUpload (st : DBState) (user : Option String) (dlg : DialogState)
    (now : Nat) (freshId : String) (uploadOk insertOk removeOk : Bool) :
    UploadOutcome :=
  match dlg.file with
  | none => ⟨[], UploadResult.noFile, st⟩
  | some f =>
    match user with
    | none => ⟨[NetCall.getUser], UploadResult.notLoggedIn, st⟩
    | some uid =>
      let path := uploadPath uid now f
      if uploadOk then
        let st1 : DBState := { st with objects := ⟨"books", path⟩ :: st.objects }
        let row : BookRow :=
          { id := freshId
            user_id := uid
            title := dlg.title
            author := if dlg.author = "" then none else some dlg.author
            file_path := path
            file_size := f.size
            file_type := some f.ftype
            cover_url := none
            uploaded_at := now }
        if insertOk then
          ⟨[NetCall.getUser, NetCall.storageUpload path f.size, NetCall.dbInsertBook row],
           UploadResult.success, { st1 with books := row :: st1.books }⟩
        else
          ⟨[NetCall.getUser, NetCall.storageUpload path f.size, NetCall.dbInsertBook row,
            NetCall.storageRemove path],
           UploadResult.insertFailed,
           if removeOk then
             { st1 with objects :=
                st1.objects.filter (fun o => !(o.bucket_id == "books" && o.name == path)) }
           else st1⟩
      else
        ⟨[NetCall.getUser, NetCall.storageUpload path f.size],
         UploadResult.uploadFailed, st⟩

/-- The ways `handleDeleteBook` can finish. -/
inductive DeleteResult where
  | dbFailed : DeleteResult
  | success : DeleteResult
  deriving Repr, DecidableEq

/-- What a delete attempt produced. -/
structure DeleteOutcome where
  calls : List NetCall
  result : DeleteResult
  state : DBState
  deriving Repr, DecidableEq

/-- `handleDeleteBook` (library page lines 96-120): delete the metadata row
by id first; on `dbError` stop with an error.  Only then remove the storage
object; a storage error is merely logged and success is still reported. -/
def handleDeleteBook (st : DBState) (book : BookRow) (dbOk storageOk : Bool) :
    DeleteOutcome :=
  if dbOk then
    let st1 : DBState := { st with books := st.books.filter (fun b => b.id != book.id) }
    let st2 : DBState :=
      if storageOk then
        { st1 with objects :=
            st1.objects.filter (fun o => !(o.bucket_id == "books" && o.name == book.file_path)) }
      else st1
    ⟨[NetCall.dbDeleteBook book.id, NetCall.storageRemove book.file_path],
     DeleteResult.success, st2⟩
  else
    ⟨[NetCall.dbDeleteBook book.id], DeleteResult.dbFailed, st⟩

/-- `fetchBooks` (library page lines 62-77): select the caller's rows ordered
by `uploaded_at` descending. -/
def fetchBooks (st : DBState) (uid : String) : List BookRow :=
  (st.books.filter (fun b => b.user_id == uid)).mergeSort
    (fun a b => b.uploaded_at ≤ a.uploaded_at)

/-- SQL `sum(...)` over a selection: `NULL` (none) on the empty selection. -/
def sqlSum : List Nat → Option Nat
  | [] => none
  | x :: xs => some (x + xs.sum)

/-- `public.get_user_storage_used` (migration lines 148-158):
`coalesce(sum(file_size), 0)` over the rows with `user_id = user_uuid`. -/
def get_user_storage_used (st : DBState) (user_uuid : String) : Nat :=
  (sqlSum ((st.books.filter (fun b => b.user_id == user_uuid)).map
    (fun b => b.file_size))).getD 0

/-- Splitting a character list at a separator character: the grouping that
SQL `string_to_array`/`storage.foldername` performs on `/`. -/
def splitChar (c : Char) : List Char → List (List Char)
  | [] => [[]]
  | x :: xs =>
    if x = c then [] :: splitChar c xs
    else
      match splitChar c xs with
      | [] => [[x]]
      | g :: gs => (x :: g) :: gs

/-- The `/`-separated components of an object name. -/
def pathSegments (name : String) : List String :=
  (splitChar '/' name.data).map (fun l => String.mk l)

/-- `storage.foldername(name)`: the path components of `name` without the
final one (the bare file name), so that `(storage.foldername(name))[1]` is
`(foldername name).head?`. -/
def foldername (name : String) : List String :=
  (pathSegments name).dropLast

/-- RLS policy "Users can view their own books" (migration lines 84-87):
`auth.uid() = user_id`. -/
def books_select_policy (uid : String) (row : BookRow) : Bool :=
  uid == row.user_id

/-- Storage policy "Users can view their own book files" (migration lines
109-112): `bucket_id = 'books' AND auth.uid()::text = (storage.foldername(name))[1]`. -/
def objects_select_policy (uid : String) (o : StorageObject) : Bool :=
  o.bucket_id == "books" && ((foldername o.name).head? == some uid)

/-- Storage policy "Users can upload their own book files" (migration lines
114-117), the `with check` condition on inserted objects. -/
def objects_insert_policy (uid : String) (o : StorageObject) : Bool :=
  o.bucket_id == "books" && ((foldername o.name).head? == some uid)

/-- The rows a `select` on `public.books` can ever return to caller `uid`:
RLS filters the table through the select policy. -/
def visibleBooks (st : DBState) (uid : String) : List BookRow :=
  st.books.filter (books_select_policy uid)

/-- The objects a `select` (and hence a download) on `storage.objects` can
ever return to caller `uid`. -/
def visibleObjects (st : DBState) (uid : String) : List StorageObject :=
  st.objects.filter (objects_select_policy uid)

/-- The `public.app_role` enum. -/
inductive AppRole where
  | admin : AppRole
  | user : AppRole
  deriving Repr, DecidableEq

/-- A row of `auth.users` as the trigger sees it: `new.id`, `new.email`,
`new.raw_user_meta_data->>'full_name'`. -/
structure AuthUser where
  id : String
  email : Option String
  full_name : Option String
  deriving Repr, DecidableEq

/-- A row of `public.profiles` (migration lines 2-8), primary key `id`. -/
structure ProfileRow where
  id : String
  email : Option String
  full_name : Option String
  deriving Repr, DecidableEq

/-- A row of `public.user_roles` (migration lines 16-21): generated primary
key `id` and `unique (user_id, role)`. -/
structure RoleRow where
  id : String
  user_id : String
  role : AppRole
  deriving Repr, DecidableEq

/-- The tables the signup bootstrap touches. -/
structure AuthState where
  users : List AuthUser
  profiles : List ProfileRow
  user_roles : List RoleRow
  deriving Repr, DecidableEq

/-- The signup transaction: the platform inserts the new identity into
`auth.users`, which fires `on_auth_user_created` running `handle_new_user`
(migration lines 125-145) in the same transaction: insert a profile row,
then a default `user` role row.  Any constraint violation (duplicate
identity, duplicate profile primary key, duplicate `(user_id, role)`)
aborts the entire transaction, yielding `none`.  `roleRowId` is the
database-generated `gen_random_uuid()` primary key of the role row, assumed
fresh. -/
def signup (st : AuthState) (nu : AuthUser) (roleRowId : String) :
    Option AuthState :=
  if st.users.any (fun u => u.id == nu.id) then none
  else if st.profiles.any (fun p => p.id == nu.id) then none
  else if st.user_roles.any (fun r => r.user_id == nu.id && r.role == AppRole.user) then none
  else
    some { users := nu :: st.users
           profiles := ⟨nu.id, nu.email, nu.full_name⟩ :: st.profiles
           user_roles := ⟨roleRowId, nu.id, AppRole.user⟩ :: st.user_roles }

/-- Dialog states reachable through the upload dialog's event handlers from
its initial state (empty title and author, no file selected), at fixed
`storageUsed`/`storageLimit` props.  `reset` is the clearing performed after
a successful upload (UploadBookDialog.tsx lines 88-90). -/
inductive DialogReachable (storageUsed storageLimit : Nat) : DialogState → Prop where
  | init : DialogReachable storageUsed storageLimit ⟨"", "", none⟩
  | setTitle (s : DialogState) (t : String) :
      DialogReachable storageUsed storageLimit s →
      DialogReachable storageUsed storageLimit { s with title := t }
  | setAuthor (s : DialogState) (a : String) :
      DialogReachable storageUsed storageLimit s →
      DialogReachable storageUsed storageLimit { s with author := a }
  | fileChange (s : DialogState) (f : FileObj) :
      DialogReachable storageUsed storageLimit s →
      DialogReachable storageUsed storageLimit
        (handleFileChange storageUsed storageLimit s f)
  | reset (s : DialogState) :
      DialogReachable storageUsed storageLimit s →
      DialogReachable storageUsed storageLimit ⟨"", "", none⟩

/-- A user id as issued by the platform: a uuid rendered as hex digits and
hyphens, hence never containing a `/`. -/
def ValidUid (uid : String) : Prop :=
  '/' ∉ uid.data

/-- Backend states reachable from the empty deployment through the book
flows, every acting identity being a platform-issued uuid. -/
inductive SysReachable : DBState → Prop where
  | init : SysReachable ⟨[], []⟩
  | upload (st : DBState) (uid : String) (dlg : DialogState) (now : Nat)
      (freshId : String) (uploadOk insertOk removeOk : Bool) :
      SysReachable st → ValidUid uid →
      SysReachable (handleUpload st (some uid) dlg now freshId
        uploadOk insertOk removeOk).state
  | uploadAnon (st : DBState) (dlg : DialogState) (now : Nat)
      (freshId : String) (uploadOk insertOk removeOk : Bool) :
      SysReachable st →
      SysReachable (handleUpload st none dlg now freshId
        uploadOk insertOk removeOk).state
  | deleteBook (st : DBState) (book : BookRow) (dbOk storageOk : Bool) :
      SysReachable st →
      SysReachable (handleDeleteBook st book dbOk storageOk).state

/-- `STORAGE_LIMIT` (library page line 24): 200MB in bytes. -/
def STORAGE_LIMIT : Nat := 200 * 1024 * 1024

/-! ## Helper lemmas -/

lemma splitChar_ne_nil (c : Char) (l : List Char) : splitChar c l ≠ [] := by
  induction l with
  | nil => simp [splitChar]
  | cons x xs ih =>
    unfold splitChar
    by_cases h : x = c
    · simp [h]
    · simp only [if_neg h]
      cases hs : splitChar c xs with
      | nil => simp
      | cons g gs => simp

lemma splitChar_append (c : Char) (a b : List Char) (h : c ∉ a) :
    splitChar c (a ++ c :: b) = a :: splitChar c b := by
  induction a with
  | nil => simp [splitChar]
  | cons x xs ih =>
    have hx : x ≠ c := fun e => h (e ▸ List.mem_cons_self x xs)
    have hxs : c ∉ xs := fun hm => h (List.mem_cons_of_mem _ hm)
    simp only [List.cons_append, splitChar, if_neg hx]
    rw [show xs.append (c :: b) = xs ++ c :: b from rfl, ih hxs]

lemma mk_data (s : String) : String.mk s.data = s := rfl

lemma pathSegments_append (uid rest : String) (h : '/' ∉ uid.data) :
    pathSegments (uid ++ "/" ++ rest) = uid :: pathSegments rest := by
  unfold pathSegments
  have hd : (uid ++ "/" ++ rest).data = uid.data ++ '/' :: rest.data := by
    simp [String.data_append]
  rw [hd, splitChar_append _ _ _ h]
  simp [mk_data]

lemma foldername_head (uid rest : String) (h : '/' ∉ uid.data) :
    (foldername (uid ++ "/" ++ rest)).head? = some uid := by
  unfold foldername
  rw [pathSegments_append uid rest h]
  have hne : pathSegments rest ≠ [] := by
    unfold pathSegments
    simp [splitChar_ne_nil]
  cases hp : pathSegments rest with
  | nil => exact absurd hp hne
  | cons s ss => simp

/-! ## C6: the storage aggregate is the sum over the user's rows -/

/-- C6: for every user id and every state of the books table,
`get_user_storage_used` returns exactly the sum of `file_size` over that
user's book rows. -/
theorem get_user_storage_used_eq_sum (st : DBState) (uid : String) :
    get_user_storage_used st uid =
      ((st.books.filter (fun b => b.user_id == uid)).map (fun b => b.file_size)).sum := by
  unfold get_user_storage_used
  cases h : (st.books.filter (fun b => b.user_id == uid)).map (fun b => b.file_size) with
  | nil => simp [h, sqlSum]
  | cons x xs => simp [h, sqlSum]

/-! ## C10: the aggregate coalesces the empty sum to zero -/

/-- C10: for a user with no book rows, `get_user_storage_used` returns `0`:
the `NULL` sum is coalesced to zero, never left absent. -/
theorem get_user_storage_used_no_rows (st : DBState) (uid : String)
    (h : ∀ b ∈ st.books, b.user_id ≠ uid) :
    get_user_storage_used st uid = 0 := by
  have hf : st.books.filter (fun b => b.user_id == uid) = [] := by
    apply List.filter_eq_nil_iff.mpr
    intro b hb
    simpa using h b hb
  simp [get_user_storage_used, hf, sqlSum]

/-- Witness for C10 at a concrete state holding only another user's row. -/
theorem get_user_storage_used_no_rows_witness :
    get_user_storage_used
      ⟨[⟨"id1", "u2", "T", none, "u2/1.pdf", 7, none, none, 0⟩], []⟩ "u1" = 0 :=
  get_user_storage_used_no_rows _ "u1" (by decide)

/-! ## C9: the quota check is a strict inequality -/

/-- C9: the client quota check rejects only totals strictly greater than the
200MB limit (209715200 bytes); a file making the total exactly equal to the
limit is accepted and recorded as the selection. -/
theorem quota_check_boundary (storageUsed : Nat) (s : DialogState) (f : FileObj) :
    STORAGE_LIMIT = 209715200 ∧
    (storageUsed + f.size = STORAGE_LIMIT →
      (handleFileChange storageUsed STORAGE_LIMIT s f).file = some f) ∧
    (storageUsed + f.size > STORAGE_LIMIT →
      handleFileChange storageUsed STORAGE_LIMIT s f = s) := by
  refine ⟨by decide, fun h => ?_, fun h => ?_⟩
  · simp [handleFileChange, h]
  · simp [handleFileChange, h]

/-- Witness for C9: a file landing exactly on the limit is accepted. -/
theorem quota_check_boundary_witness :
    (handleFileChange 209715100 STORAGE_LIMIT ⟨"", "", none⟩
      ⟨"b.pdf", 100, "t"⟩).file = some ⟨"b.pdf", 100, "t"⟩ :=
  (quota_check_boundary 209715100 ⟨"", "", none⟩ ⟨"b.pdf", 100, "t"⟩).2.1 (by decide)

/-! ## C2: row-level security isolates users -/

/-- C2: for distinct authenticated users `A` and `B`, the select policy on
`public.books` never lets `A` observe a row owned by `B`, and the select
policy on `storage.objects` never lets `A` observe an object whose first
path segment is `B`. -/
theorem rls_user_isolation (A B : String) (hAB : A ≠ B) (st : DBState) :
    (∀ row ∈ visibleBooks st A, row.user_id ≠ B) ∧
    (∀ o ∈ visibleObjects st A, (foldername o.name).head? ≠ some B) := by
  constructor
  · intro row hrow
    have hp := (List.mem_filter.mp hrow).2
    simp only [books_select_policy, beq_iff_eq] at hp
    rw [← hp]
    exact hAB
  · intro o ho
    have hp := (List.mem_filter.mp ho).2
    simp only [objects_select_policy, Bool.and_eq_true, beq_iff_eq] at hp
    rw [hp.2]
    intro hB
    exact hAB (Option.some.inj hB)

/-- Witness for C2 at concrete users `u-a ≠ u-b` and a state holding one of
`u-b`'s rows and objects. -/
theorem rls_user_isolation_witness :
    (∀ row ∈ visibleBooks
        ⟨[⟨"id1", "u-b", "T", none, "u-b/1.pdf", 5, none, none, 0⟩],
         [⟨"books", "u-b/1.pdf"⟩]⟩ "u-a", row.user_id ≠ "u-b") ∧
    (∀ o ∈ visibleObjects
        ⟨[⟨"id1", "u-b", "T", none, "u-b/1.pdf", 5, none, none, 0⟩],
         [⟨"books", "u-b/1.pdf"⟩]⟩ "u-a", (foldername o.name).head? ≠ some "u-b") :=
  rls_user_isolation "u-a" "u-b" (by decide) _

/-! ## C3: delete removes the metadata row first -/

/-- C3: `handleDeleteBook` issues the metadata delete as its first request;
the storage removal is attempted only when the database delete succeeded;
and whenever success is reported the metadata row is absent from the
resulting state, whether or not the object deletion succeeded. -/
theorem delete_metadata_row_first (st : DBState) (book : BookRow)
    (dbOk storageOk : Bool) :
    ((handleDeleteBook st book dbOk storageOk).calls.head? =
      some (NetCall.dbDeleteBook book.id)) ∧
    (NetCall.storageRemove book.file_path ∈
        (handleDeleteBook st book dbOk storageOk).calls → dbOk = true) ∧
    ((handleDeleteBook st book dbOk storageOk).result = DeleteResult.success →
      ∀ b ∈ (handleDeleteBook st book dbOk storageOk).state.books, b.id ≠ book.id) := by
  cases dbOk with
  | false => simp [handleDeleteBook]
  | true =>
    refine ⟨by simp [handleDeleteBook], by simp, fun _ b hb => ?_⟩
    cases storageOk <;>
    · simp [handleDeleteBook] at hb
      exact hb.2

/-- Witness for C3: deleting a present row with a failing storage removal
still leaves the metadata row absent. -/
theorem delete_metadata_row_first_witness :
    ((handleDeleteBook
        ⟨[⟨"id1", "u1", "T", none, "u1/42.pdf", 10, none, none, 42⟩],
         [⟨"books", "u1/42.pdf"⟩]⟩
        ⟨"id1", "u1", "T", none, "u1/42.pdf", 10, none, none, 42⟩
        true false).result = DeleteResult.success) ∧
    (∀ b ∈ (handleDeleteBook
        ⟨[⟨"id1", "u1", "T", none, "u1/42.pdf", 10, none, none, 42⟩],
         [⟨"books", "u1/42.pdf"⟩]⟩
        ⟨"id1", "u1", "T", none, "u1/42.pdf", 10, none, none, 42⟩
        true false).state.books, b.id ≠ "id1") :=
  ⟨rfl,
   (delete_metadata_row_first
      ⟨[⟨"id1", "u1", "T", none, "u1/42.pdf", 10, none, none, 42⟩],
       [⟨"books", "u1/42.pdf"⟩]⟩
      ⟨"id1", "u1", "T", none, "u1/42.pdf", 10, none, none, 42⟩
      true false).2.2 rfl⟩

/-! ## C4: failed metadata insert triggers compensation -/

/-- C4: when the storage upload succeeds but the metadata insert fails,
`handleUpload` issues a remove request for the just-uploaded object and does
not report success. -/
theorem upload_compensates_on_insert_failure (st : DBState) (uid : String)
    (dlg : DialogState) (f : FileObj) (now : Nat) (freshId : String)
    (removeOk : Bool) (hf : dlg.file = some f) :
    (handleUpload st (some uid) dlg now freshId true false removeOk).result ≠
      UploadResult.success ∧
    NetCall.storageRemove (uploadPath uid now f) ∈
      (handleUpload st (some uid) dlg now freshId true false removeOk).calls := by
  constructor <;> simp [handleUpload, hf]

/-- Witness for C4 at a concrete failed insert (with the compensating remove
itself failing). -/
theorem upload_compensates_on_insert_failure_witness :
    (handleUpload ⟨[], []⟩ (some "u1") ⟨"T", "A", some ⟨"b.pdf", 10, "t"⟩⟩
        42 "id1" true false false).result ≠ UploadResult.success ∧
    NetCall.storageRemove (uploadPath "u1" 42 ⟨"b.pdf", 10, "t"⟩) ∈
      (handleUpload ⟨[], []⟩ (some "u1") ⟨"T", "A", some ⟨"b.pdf", 10, "t"⟩⟩
        42 "id1" true false false).calls :=
  upload_compensates_on_insert_failure ⟨[], []⟩ "u1"
    ⟨"T", "A", some ⟨"b.pdf", 10, "t"⟩⟩ ⟨"b.pdf", 10, "t"⟩ 42 "id1" false rfl

/-! ## C1: over-quota uploads are rejected locally, no request sent -/

lemma dialog_quota_inv (su sl : Nat) (s : DialogState)
    (h : DialogReachable su sl s) :
    ∀ f, s.file = some f → su + f.size ≤ sl := by
  induction h with
  | init => simp
  | setTitle s t _ ih => exact ih
  | setAuthor s a _ ih => exact ih
  | fileChange s f0 _ ih =>
    intro f hf
    unfold handleFileChange at hf
    by_cases hq : su + f0.size > sl
    · rw [if_pos hq] at hf
      exact ih f hf
    · rw [if_neg hq] at hf
      simp at hf
      rw [← hf]
      omega
  | reset s _ _ => simp

/-- C1: in any dialog state reachable through the component's handlers, an
over-quota file selection is rejected in place (`handleFileChange` leaves
the state unchanged), and every storage upload request `handleUpload` ever
issues is for a size within the remaining quota — so an attempt whose
`storageUsed + file.size` exceeds `storageLimit` never sends the upload
request. -/
theorem upload_request_respects_quota (su sl : Nat) (s : DialogState)
    (h : DialogReachable su sl s) :
    (∀ f : FileObj, su + f.size > sl → handleFileChange su sl s f = s) ∧
    (∀ (st : DBState) (user : Option String) (now : Nat) (freshId : String)
        (uploadOk insertOk removeOk : Bool) (path : String) (sz : Nat),
      NetCall.storageUpload path sz ∈
        (handleUpload st user s now freshId uploadOk insertOk removeOk).calls →
      su + sz ≤ sl) := by
  constructor
  · intro f hf
    simp [handleFileChange, hf]
  · intro st user now freshId uploadOk insertOk removeOk path sz hmem
    cases hs : s.file with
    | none => simp [handleUpload, hs] at hmem
    | some f =>
      have hq := dialog_quota_inv su sl s h f hs
      cases user with
      | none => simp [handleUpload, hs] at hmem
      | some uid =>
        cases uploadOk <;> cases insertOk <;>
          simp [handleUpload, hs] at hmem <;>
          · rw [hmem.2]
            exact hq

/-- Witness for C1: from the initial dialog state an over-quota selection
(11 bytes against limit 10) is rejected in place, and from a reachable state
holding an in-quota 5-byte file the issued upload request's size is within
the quota. -/
theorem upload_request_respects_quota_witness :
    handleFileChange 0 10 ⟨"", "", none⟩ ⟨"big.pdf", 11, "t"⟩ = ⟨"", "", none⟩ ∧
    (0 : Nat) + 5 ≤ 10 :=
  ⟨(upload_request_respects_quota 0 10 ⟨"", "", none⟩ DialogReachable.init).1
      ⟨"big.pdf", 11, "t"⟩ (by decide),
   (upload_request_respects_quota 0 10 ⟨"", "", some ⟨"b.pdf", 5, "t"⟩⟩
      (DialogReachable.fileChange ⟨"", "", none⟩ ⟨"b.pdf", 5, "t"⟩
        DialogReachable.init)).2
      ⟨[], []⟩ (some "u1") 42 "id1" true true true
      (uploadPath "u1" 42 ⟨"b.pdf", 5, "t"⟩) 5 (by simp [handleUpload])⟩

/-! ## C5: every created book row's path is namespaced by its owner -/

lemma sysReachable_path_inv (st : DBState) (h : SysReachable st) :
    ∀ r ∈ st.books, '/' ∉ r.user_id.data ∧
      ∃ rest, r.file_path = r.user_id ++ "/" ++ rest := by
  induction h with
  | init => simp
  | upload st uid dlg now freshId uploadOk insertOk removeOk _ hv ih =>
    intro r hr
    cases hs : dlg.file with
    | none =>
      simp [handleUpload, hs] at hr
      exact ih r hr
    | some f =>
      cases uploadOk with
      | false =>
        simp [handleUpload, hs] at hr
        exact ih r hr
      | true =>
        cases insertOk with
        | false =>
          cases removeOk <;> simp [handleUpload, hs] at hr <;> exact ih r hr
        | true =>
          simp [handleUpload, hs] at hr
          rcases hr with hnew | hold
          · subst hnew
            refine ⟨hv, toString now ++ "." ++ fileExt f, ?_⟩
            simp [uploadPath, String.append_assoc]
          · exact ih r hold
  | uploadAnon st dlg now freshId uploadOk insertOk removeOk _ ih =>
    intro r hr
    cases hs : dlg.file with
    | none =>
      simp [handleUpload, hs] at hr
      exact ih r hr
    | some f =>
      simp [handleUpload, hs] at hr
      exact ih r hr
  | deleteBook st book dbOk storageOk _ ih =>
    intro r hr
    cases dbOk with
    | false => exact ih r hr
    | true =>
      cases storageOk <;>
      · simp [handleDeleteBook] at hr
        exact ih r hr.1

/-- C5: in every backend state the system can reach, every book row's storage
path has the owning user's id as its first path segment (both as the first
`/`-separated component and as `(storage.foldername(path))[1]`). -/
theorem book_rows_path_namespaced (st : DBState) (h : SysReachable st) :
    ∀ r ∈ st.books, (pathSegments r.file_path).head? = some r.user_id ∧
      (foldername r.file_path).head? = some r.user_id := by
  intro r hr
  obtain ⟨hslash, rest, hpath⟩ := sysReachable_path_inv st h r hr
  rw [hpath]
  refine ⟨?_, foldername_head _ _ hslash⟩
  rw [pathSegments_append _ _ hslash]
  rfl

/-- Witness for C5: the row created by a concrete upload has its owner as the
first path segment. -/
theorem book_rows_path_namespaced_witness :
    (foldername (uploadPath "u1" 42 ⟨"b.pdf", 10, "t"⟩)).head? = some "u1" := by
  have h0 : SysReachable (handleUpload ⟨[], []⟩ (some "u1")
      ⟨"T", "A", some ⟨"b.pdf", 10, "t"⟩⟩ 42 "id1" true true true).state :=
    SysReachable.upload ⟨[], []⟩ "u1" ⟨"T", "A", some ⟨"b.pdf", 10, "t"⟩⟩ 42 "id1"
      true true true SysReachable.init (by unfold ValidUid; decide)
  exact (book_rows_path_namespaced _ h0 _ (List.mem_cons_self _ _)).2

/-! ## C7: signup bootstraps exactly one profile and one user role -/

/-- C7: whenever the signup transaction succeeds, the new state holds exactly
one profile row for the identity (carrying its id, email and full name) and
exactly one `user` role row for it, and the identity itself was created;
moreover success implies none of the trigger's inserts could have violated a
constraint (a trigger failure aborts the whole transaction, so no state with
the identity but without the bootstrap rows ever exists — `signup` returns
`none` instead). -/
theorem signup_bootstrap (st : AuthState) (nu : AuthUser) (rid : String)
    (st' : AuthState) (h : signup st nu rid = some st') :
    st'.profiles.countP (fun p => p.id == nu.id) = 1 ∧
    (∀ p ∈ st'.profiles, p.id = nu.id →
      p.email = nu.email ∧ p.full_name = nu.full_name) ∧
    st'.user_roles.countP
      (fun r => r.user_id == nu.id && r.role == AppRole.user) = 1 ∧
    nu ∈ st'.users ∧
    st.users.any (fun u => u.id == nu.id) = false ∧
    st.profiles.any (fun p => p.id == nu.id) = false ∧
    st.user_roles.any
      (fun r => r.user_id == nu.id && r.role == AppRole.user) = false := by
  unfold signup at h
  split at h
  · exact absurd h (by simp)
  split at h
  · exact absurd h (by simp)
  split at h
  · exact absurd h (by simp)
  rename_i hu hp hr
  simp only [Bool.not_eq_true] at hu hp hr
  injection h with h
  subst h
  have hp0 : st.profiles.countP (fun p => p.id == nu.id) = 0 :=
    List.countP_eq_zero.mpr (List.any_eq_false.mp hp)
  have hr0 : st.user_roles.countP
      (fun r => r.user_id == nu.id && r.role == AppRole.user) = 0 :=
    List.countP_eq_zero.mpr (List.any_eq_false.mp hr)
  refine ⟨?_, ?_, ?_, List.mem_cons_self _ _, hu, hp, hr⟩
  · rw [List.countP_cons, hp0]
    simp
  · intro p hmem hpid
    rcases List.mem_cons.mp hmem with rfl | hold
    · exact ⟨rfl, rfl⟩
    · exact absurd (beq_iff_eq.mpr hpid) (List.any_eq_false.mp hp p hold)
  · rw [List.countP_cons, hr0]
    simp

/-- Witness for C7: signing up a fresh identity on the empty deployment
yields exactly one profile row and one `user` role row. -/
theorem signup_bootstrap_witness :
    (⟨[⟨"u1", some "a@b", some "N"⟩], [⟨"u1", some "a@b", some "N"⟩],
      [⟨"r1", "u1", AppRole.user⟩]⟩ : AuthState).profiles.countP
      (fun p => p.id == "u1") = 1 ∧
    (⟨[⟨"u1", some "a@b", some "N"⟩], [⟨"u1", some "a@b", some "N"⟩],
      [⟨"r1", "u1", AppRole.user⟩]⟩ : AuthState).user_roles.countP
      (fun r => r.user_id == "u1" && r.role == AppRole.user) = 1 := by
  have h := signup_bootstrap ⟨[], [], []⟩ ⟨"u1", some "a@b", some "N"⟩ "r1"
    ⟨[⟨"u1", some "a@b", some "N"⟩], [⟨"u1", some "a@b", some "N"⟩],
     [⟨"r1", "u1", AppRole.user⟩]⟩ rfl
  exact ⟨h.1, h.2.2.1⟩

/-! ## C8: upload followed by list fetch round-trips -/

/-- C8: after a successful upload (fresh generated row id, non-empty supplied
author), the list fetch for the same user contains exactly one row with the
new id — none existed before — and that row carries the supplied title and
author and the uploaded file's size. -/
theorem upload_then_fetch_roundtrip
    (st : DBState) (uid : String) (dlg : DialogState) (f : FileObj)
    (now : Nat) (freshId : String) (removeOk : Bool)
    (hf : dlg.file = some f) (ha : dlg.author ≠ "")
    (hfresh : ∀ b ∈ st.books, b.id ≠ freshId) :
    (handleUpload st (some uid) dlg now freshId true true removeOk).result =
      UploadResult.success ∧
    (fetchBooks st uid).countP (fun b => b.id == freshId) = 0 ∧
    (fetchBooks (handleUpload st (some uid) dlg now freshId true true removeOk).state
      uid).countP (fun b => b.id == freshId) = 1 ∧
    ∀ b ∈ fetchBooks
        (handleUpload st (some uid) dlg now freshId true true removeOk).state uid,
      b.id = freshId →
        b.user_id = uid ∧ b.title = dlg.title ∧ b.author = some dlg.author ∧
        b.file_size = f.size := by
  have hbooks : (handleUpload st (some uid) dlg now freshId true true removeOk).state.books
      = ({ id := freshId, user_id := uid, title := dlg.title,
           author := if dlg.author = "" then none else some dlg.author,
           file_path := uploadPath uid now f, file_size := f.size,
           file_type := some f.ftype, cover_url := none,
           uploaded_at := now } : BookRow) :: st.books := by
    simp [handleUpload, hf]
  have hcount0 : (st.books.filter (fun b => b.user_id == uid)).countP
      (fun b => b.id == freshId) = 0 :=
    List.countP_eq_zero.mpr fun b hb => by
      simpa using hfresh b (List.mem_filter.mp hb).1
  refine ⟨by simp [handleUpload, hf], ?_, ?_, ?_⟩
  · rw [fetchBooks, (List.mergeSort_perm _ _).countP_eq]
    exact hcount0
  · rw [fetchBooks, (List.mergeSort_perm _ _).countP_eq, hbooks,
      List.filter_cons]
    simp only [beq_self_eq_true, if_true]
    rw [List.countP_cons, hcount0]
    simp
  · intro b hb hid
    have hmem : b ∈ (handleUpload st (some uid) dlg now freshId true true
        removeOk).state.books := by
      have := (List.mergeSort_perm _ _).mem_iff.mp hb
      exact (List.mem_filter.mp this).1
    rw [hbooks] at hmem
    rcases List.mem_cons.mp hmem with rfl | hold
    · exact ⟨rfl, rfl, by simp [if_neg ha], rfl⟩
    · exact absurd hid (hfresh b hold)

/-- Witness for C8: a concrete upload into the empty state, then a fetch. -/
theorem upload_then_fetch_roundtrip_witness :
    (fetchBooks (handleUpload ⟨[], []⟩ (some "u1")
        ⟨"T", "A", some ⟨"b.pdf", 10, "t"⟩⟩ 42 "id1" true true true).state
      "u1").countP (fun b => b.id == "id1") = 1 ∧
    (fetchBooks (⟨[], []⟩ : DBState) "u1").countP (fun b => b.id == "id1") = 0 :=
  ⟨(upload_then_fetch_roundtrip ⟨[], []⟩ "u1" ⟨"T", "A", some ⟨"b.pdf", 10, "t"⟩⟩
      ⟨"b.pdf", 10, "t"⟩ 42 "id1" true rfl (by decide) (by simp)).2.2.1,
   (upload_then_fetch_roundtrip ⟨[], []⟩ "u1" ⟨"T", "A", some ⟨"b.pdf", 10, "t"⟩⟩
      ⟨"b.pdf", 10, "t"⟩ 42 "id1" true rfl (by decide) (by simp)).2.1⟩
